import Mathlib

/-!
Shallow embedding of the OmnyChat backend relay core:
the offline mailbox (`MessageModel` in `src/models/message.model.ts`),
the WebSocket session/router layer (`src/websocket/index.ts`), and the
HTTP signaling controller (`src/controllers/signal.controller.ts`).

Database timestamps (`CURRENT_TIMESTAMP`) are modelled by an explicit
`now : Nat` argument; message contents are opaque blobs that are either
chat payloads or the JSON signal wrapper the controller serializes.
-/

/-- Stored message content: either an opaque encrypted chat blob, or the
JSON wrapper `{type:'signal', signalType, data}` that `sendSignal`
serializes before storing. `getPendingSignals` recognizes only the
latter as signal-shaped. -/
inductive Content where
  | chat (blob : String)
  | signalJson (signalType : String) (data : String)
deriving Repr, DecidableEq, BEq

/-- A row of the `messages` table (schema in `src/config/schema.sql`). -/
structure Msg where
  id : Nat
  sender_id : Nat
  recipient_id : Nat
  encrypted_content : Content
  created_at : Nat
  is_delivered : Bool
  delivered_at : Option Nat
  is_read : Bool
  read_at : Option Nat
deriving Repr, DecidableEq, BEq

/-- The `messages` table: rows in insertion order plus the sequence that
assigns fresh primary keys. -/
structure DB where
  rows : List Msg
  nextId : Nat
deriving Repr, DecidableEq, BEq

/-- `MessageModel.storeMessage`: `INSERT INTO messages (sender_id,
recipient_id, encrypted_content) VALUES ($1,$2,$3) RETURNING *`.
Returns the inserted row and the new table state. -/
def storeMessage (db : DB) (senderId recipientId : Nat) (content : Content)
    (now : Nat) : Msg × DB :=
  let m : Msg := ⟨db.nextId, senderId, recipientId, content, now, false, none, false, none⟩
  (m, ⟨db.rows ++ [m], db.nextId + 1⟩)

/-- Insert a message into a list sorted by `created_at` (ascending). -/
def insertLe (m : Msg) : List Msg → List Msg
  | [] => [m]
  | n :: ns => if m.created_at ≤ n.created_at then m :: n :: ns else n :: insertLe m ns

/-- Sort by `created_at` ascending: the `ORDER BY created_at ASC` of
`getUndeliveredMessages`. -/
def sortByCreated : List Msg → List Msg
  | [] => []
  | m :: ms => insertLe m (sortByCreated ms)

/-- Predicate of the `WHERE recipient_id = $1 AND is_delivered = false`
clause of `MessageModel.getUndeliveredMessages`. -/
def undeliveredFor (userId : Nat) (m : Msg) : Bool :=
  m.recipient_id == userId && !m.is_delivered

/-- `MessageModel.getUndeliveredMessages`: `SELECT * FROM messages WHERE
recipient_id = $1 AND is_delivered = false ORDER BY created_at ASC`. -/
def getUndeliveredMessages (db : DB) (userId : Nat) : List Msg :=
  sortByCreated (db.rows.filter (undeliveredFor userId))

/-- The per-row effect of `markAsDelivered`'s `UPDATE`. -/
def deliverRow (ids : List Nat) (now : Nat) (m : Msg) : Msg :=
  if m.id ∈ ids then
    ⟨m.id, m.sender_id, m.recipient_id, m.encrypted_content, m.created_at,
      true, some now, m.is_read, m.read_at⟩
  else m

/-- `MessageModel.markAsDelivered`: early-returns 0 on an empty id list,
otherwise `UPDATE messages SET is_delivered = true, delivered_at =
CURRENT_TIMESTAMP WHERE id IN (...)`, returning the matched row count. -/
def markAsDelivered (db : DB) (ids : List Nat) (now : Nat) : DB × Nat :=
  if ids.isEmpty then (db, 0)
  else
    (⟨db.rows.map (deliverRow ids now), db.nextId⟩,
     (db.rows.filter (fun m => m.id ∈ ids)).length)

/-- The per-row effect of `markAsRead`'s `UPDATE` (scoped to the caller's
`recipient_id`). -/
def readRow (ids : List Nat) (userId now : Nat) (m : Msg) : Msg :=
  if m.id ∈ ids ∧ m.recipient_id = userId then
    ⟨m.id, m.sender_id, m.recipient_id, m.encrypted_content, m.created_at,
      m.is_delivered, m.delivered_at, true, some now⟩
  else m

/-- `MessageModel.markAsRead`: early-returns 0 on an empty id list,
otherwise `UPDATE messages SET is_read = true, read_at =
CURRENT_TIMESTAMP WHERE id IN (...) AND recipient_id = $n`. -/
def markAsRead (db : DB) (ids : List Nat) (userId now : Nat) : DB × Nat :=
  if ids.isEmpty then (db, 0)
  else
    (⟨db.rows.map (readRow ids userId now), db.nextId⟩,
     (db.rows.filter (fun m => m.id ∈ ids ∧ m.recipient_id = userId)).length)

/- Basic sorting lemmas. -/

theorem mem_insertLe (a m : Msg) (l : List Msg) :
    a ∈ insertLe m l ↔ a = m ∨ a ∈ l := by
  induction l with
  | nil => simp [insertLe]
  | cons n ns ih =>
    by_cases h : m.created_at ≤ n.created_at
    · simp [insertLe, h]
    · simp [insertLe, h, ih]
      tauto

theorem mem_sortByCreated (a : Msg) (l : List Msg) :
    a ∈ sortByCreated l ↔ a ∈ l := by
  induction l with
  | nil => simp [sortByCreated]
  | cons m ms ih => simp [sortByCreated, mem_insertLe, ih]

/-- On a list whose head is ≤ everything after it and whose tail is
already in `created_at` order, sorting is the identity. -/
theorem sortByCreated_eq_self (l : List Msg)
    (h : l.Pairwise (fun a b => a.created_at ≤ b.created_at)) :
    sortByCreated l = l := by
  induction l with
  | nil => rfl
  | cons m ms ih =>
    rcases List.pairwise_cons.mp h with ⟨hm, hms⟩
    rw [sortByCreated, ih hms]
    cases ms with
    | nil => rfl
    | cons n ns => simp [insertLe, hm n (by simp)]

/-! WebSocket layer (`src/websocket/index.ts`). Transports (`ws` handles)
are opaque numeric identifiers. -/

/-- An entry of the module-level `clients` array: `WebSocketClient`. -/
structure Client where
  userId : Nat
  ws : Nat
deriving Repr, DecidableEq, BEq

/-- `handleConnect`'s registry update: `clients = clients.filter(c =>
c.userId !== userId); clients.push({userId, ws})`. -/
def registerClient (cl : List Client) (userId ws : Nat) : List Client :=
  cl.filter (fun c => c.userId != userId) ++ [⟨userId, ws⟩]

/-- `handleDisconnect`'s registry update: `clients = clients.filter(c =>
c.ws !== ws)`. -/
def unregisterClient (cl : List Client) (ws : Nat) : List Client :=
  cl.filter (fun c => c.ws != ws)

/-- Frames pushed over a WebSocket (`ws.send(JSON.stringify(...))`). -/
inductive Frame where
  | errorF (msg : String)
  | signalF (sender : Nat) (signalType : String) (data : String)
  | connectOk (userId : Nat)
  | presenceF (userId : Nat) (status : String)
  | pendingF (msgs : List (Nat × Nat × Content × Nat))
  | messageF (sender : Nat) (content : Content) (timestamp : Nat)
  | deliveredF (recipient : Nat) (timestamp : Nat)
  | storedF (recipient : Nat) (timestamp : Nat)
deriving Repr, DecidableEq, BEq

/-- Observable side effects of a handler, recorded in program order. -/
inductive Event where
  | registerEv (userId ws : Nat)
  | unregisterEv (ws : Nat)
  | presenceSet (userId : Nat) (status : String)
  | presenceExpire (userId : Nat) (ttl : Nat)
  | send (ws : Nat) (frame : Frame)
  | fetchEv (userId : Nat)
  | markDeliveredEv (ids : List Nat)
deriving Repr, DecidableEq, BEq

/-- Redis write `redisClient.set('presence:<u>', status)`: latest write
wins per user. -/
def setPresence (p : List (Nat × String)) (userId : Nat) (status : String) :
    List (Nat × String) :=
  (userId, status) :: p.filter (fun e => e.1 != userId)

/-- Whole-server state: the `clients` array, the `messages` table and the
Redis presence keys. -/
structure Srv where
  clients : List Client
  db : DB
  presence : List (Nat × String)
deriving Repr, DecidableEq, BEq

/-- `broadcastPresence`: sends a presence frame to every connected
client. -/
def broadcastEvents (cl : List Client) (userId : Nat) (status : String) :
    List Event :=
  cl.map (fun c => Event.send c.ws (Frame.presenceF userId status))

/-- The bundled pending-message payload `handleConnect` pushes
(`{pendingMessages: [...]}` with id, sender, content, timestamp). -/
def pendingPayload (msgs : List Msg) : List (Nat × Nat × Content × Nat) :=
  msgs.map (fun m => (m.id, m.sender_id, m.encrypted_content, m.created_at))

/-- `handleConnect` after token verification (`decoded` is the result of
`verifyToken`: `some userId` on success, `none` on failure). On success:
register the transport, set presence online with a 60s expiry, send the
confirmation, broadcast presence-online, fetch undelivered messages,
and if any exist push them as one bundled frame and mark them
delivered. -/
def handleConnect (srv : Srv) (ws : Nat) (decoded : Option Nat) (now : Nat) :
    Srv × List Event :=
  match decoded with
  | none => (srv, [Event.send ws (Frame.errorF "Invalid token")])
  | some userId =>
    let cl := registerClient srv.clients userId ws
    let p := setPresence srv.presence userId "online"
    let fetched := getUndeliveredMessages srv.db userId
    let db :=
      if fetched.isEmpty then srv.db
      else (markAsDelivered srv.db (fetched.map Msg.id) now).1
    (⟨cl, db, p⟩,
      [Event.registerEv userId ws,
       Event.presenceSet userId "online",
       Event.presenceExpire userId 60,
       Event.send ws (Frame.connectOk userId)]
      ++ broadcastEvents cl userId "online"
      ++ [Event.fetchEv userId]
      ++ (if fetched.isEmpty then []
          else [Event.send ws (Frame.pendingF (pendingPayload fetched)),
                Event.markDeliveredEv (fetched.map Msg.id)]))

/-- `handleDisconnect`: if the transport has a registered client, set its
presence key to offline, remove it from `clients`, then broadcast
presence-offline to the remaining clients. -/
def handleDisconnect (srv : Srv) (ws : Nat) : Srv × List Event :=
  match srv.clients.find? (fun c => c.ws == ws) with
  | none => (srv, [])
  | some client =>
    let cl := unregisterClient srv.clients ws
    (⟨cl, srv.db, setPresence srv.presence client.userId "offline"⟩,
      [Event.presenceSet client.userId "offline",
       Event.unregisterEv ws]
      ++ broadcastEvents cl client.userId "offline")

/-- Payload of a WebSocket `signal` frame. -/
structure SigPayload where
  recipient : Nat
  stype : String
  data : String
deriving Repr, DecidableEq, BEq

/-- `handleSignal` (WebSocket): unauthenticated senders get a
`Not authenticated` error; a registered recipient gets the signal
forwarded; an absent recipient yields a `Recipient is offline` error to
the sender — nothing is ever persisted on this path. -/
def handleSignal (srv : Srv) (ws : Nat) (payload : SigPayload) :
    Srv × List Event :=
  match srv.clients.find? (fun c => c.ws == ws) with
  | none => (srv, [Event.send ws (Frame.errorF "Not authenticated")])
  | some sender =>
    match srv.clients.find? (fun c => c.userId == payload.recipient) with
    | some recipient =>
      (srv, [Event.send recipient.ws
              (Frame.signalF sender.userId payload.stype payload.data)])
    | none => (srv, [Event.send ws (Frame.errorF "Recipient is offline")])

/-- Payload of a WebSocket `message` frame (`ChatMessage`). -/
structure ChatPayload where
  recipient : Nat
  encryptedContent : Content
  timestamp : Nat
deriving Repr, DecidableEq, BEq

/-- `handleMessage` (WebSocket): unauthenticated senders get a
`Not authenticated` error; a registered recipient gets the message
forwarded plus a delivery confirmation to the sender; otherwise the
message is stored for later delivery and the sender gets a storage
confirmation. -/
def handleMessage (srv : Srv) (ws : Nat) (payload : ChatPayload) (now : Nat) :
    Srv × List Event :=
  match srv.clients.find? (fun c => c.ws == ws) with
  | none => (srv, [Event.send ws (Frame.errorF "Not authenticated")])
  | some sender =>
    match srv.clients.find? (fun c => c.userId == payload.recipient) with
    | some recipient =>
      (srv,
       [Event.send recipient.ws
          (Frame.messageF sender.userId payload.encryptedContent payload.timestamp),
        Event.send ws (Frame.deliveredF payload.recipient payload.timestamp)])
    | none =>
      let stored := storeMessage srv.db sender.userId payload.recipient
        payload.encryptedContent now
      (⟨srv.clients, stored.2, srv.presence⟩,
       [Event.send ws (Frame.storedF payload.recipient payload.timestamp)])

/-! HTTP controllers (`src/controllers/signal.controller.ts`,
`src/controllers/auth.controller.ts` message controller). -/

/-- An HTTP response: status code and message. -/
structure Resp where
  status : Nat
  msg : String
deriving Repr, DecidableEq, BEq

/-- Body of `POST /signal/send` (`SignalMessage`). JavaScript falsiness
of the validation guard is modelled as: recipient 0, or an empty type
or data string, is "missing". -/
structure SignalMessage where
  recipient : Nat
  stype : String
  data : String
deriving Repr, DecidableEq, BEq

/-- `SignalController.sendSignal`: validate the body; if the recipient
has a live WebSocket, forward the signal and answer 200; otherwise
store the signal for later delivery — except for `ice-candidate`
signals, which are not stored — and answer 202 in either case. -/
def sendSignal (clients : List Client) (db : DB) (senderId : Nat)
    (sd : SignalMessage) (now : Nat) : DB × Resp × List Event :=
  if sd.recipient == 0 || sd.stype == "" || sd.data == "" then
    (db, ⟨400, "Recipient, type, and data are required"⟩, [])
  else
    match clients.find? (fun c => c.userId == sd.recipient) with
    | some recipientClient =>
      (db, ⟨200, "Signal sent successfully"⟩,
       [Event.send recipientClient.ws (Frame.signalF senderId sd.stype sd.data)])
    | none =>
      let db2 :=
        if sd.stype != "ice-candidate" then
          (storeMessage db senderId sd.recipient
            (Content.signalJson sd.stype sd.data) now).2
        else db
      (db2, ⟨202, "Recipient offline, signal queued for delivery"⟩, [])

/-- A pending signal returned by `getPendingSignals`:
{id, sender, type, data, timestamp}. -/
structure PendingSignal where
  id : Nat
  sender : Nat
  stype : String
  data : String
  timestamp : Nat
deriving Repr, DecidableEq, BEq

/-- `JSON.parse` plus the `content.type === 'signal'` check of
`getPendingSignals`: only the stored signal wrapper maps to a pending
signal, anything else to `null`. -/
def parseSignal (m : Msg) : Option PendingSignal :=
  match m.encrypted_content with
  | Content.signalJson st d => some ⟨m.id, m.sender_id, st, d, m.created_at⟩
  | Content.chat _ => none

/-- `SignalController.getPendingSignals`: fetch the undelivered messages,
keep the signal-shaped ones, and if any exist mark those (and only
those) delivered. Returns the signal list and the new table state. -/
def getPendingSignals (db : DB) (userId now : Nat) :
    List PendingSignal × DB :=
  let signals := (getUndeliveredMessages db userId).filterMap parseSignal
  let db2 :=
    if signals.isEmpty then db
    else (markAsDelivered db (signals.map PendingSignal.id) now).1
  (signals, db2)

/-- `MessageController.getOfflineMessages`: fetch the undelivered
messages and, if any exist, mark them all delivered. Returns the
fetched rows and the new table state. -/
def getOfflineMessages (db : DB) (userId now : Nat) : List Msg × DB :=
  let msgs := getUndeliveredMessages db userId
  let db2 :=
    if msgs.isEmpty then db
    else (markAsDelivered db (msgs.map Msg.id) now).1
  (msgs, db2)

/-- Registry states reachable from the empty `clients` array through the
two mutations the code performs (`handleConnect`'s filter-and-push and
`handleDisconnect`'s filter). -/
inductive Reachable : List Client → Prop where
  | nil : Reachable []
  | reg (cl : List Client) (userId ws : Nat) :
      Reachable cl → Reachable (registerClient cl userId ws)
  | unreg (cl : List Client) (ws : Nat) :
      Reachable cl → Reachable (unregisterClient cl ws)

/-! Core lemmas about draining the mailbox. -/

/-- `deliverRow` never changes a row's primary key. -/
theorem deliverRow_id (ids : List Nat) (now : Nat) (m : Msg) :
    (deliverRow ids now m).id = m.id := by
  rw [deliverRow]
  split <;> rfl

/-- After marking every currently-undelivered message of a user, no row
of that user passes the undelivered filter any more. -/
theorem undeliveredFor_after_markAll (db : DB) (u now : Nat) (m : Msg)
    (hm : m ∈ db.rows) :
    undeliveredFor u
      (deliverRow ((getUndeliveredMessages db u).map Msg.id) now m) = false := by
  by_cases hid : m.id ∈ (getUndeliveredMessages db u).map Msg.id
  · simp [deliverRow, hid, undeliveredFor]
  · rw [deliverRow, if_neg hid]
    by_contra h
    apply hid
    have hmem : m ∈ getUndeliveredMessages db u := by
      rw [getUndeliveredMessages, mem_sortByCreated]
      exact List.mem_filter.mpr ⟨hm, by simpa using h⟩
    exact List.mem_map.mpr ⟨m, hmem, rfl⟩

/-- Marking exactly the ids returned by an undelivered fetch leaves no
undelivered messages for that user. -/
theorem markAll_drains (db : DB) (u now : Nat) :
    getUndeliveredMessages
      (markAsDelivered db ((getUndeliveredMessages db u).map Msg.id) now).1 u
      = [] := by
  by_cases hE : ((getUndeliveredMessages db u).map Msg.id).isEmpty
  · rw [markAsDelivered, if_pos hE]
    have : getUndeliveredMessages db u = [] :=
      List.map_eq_nil_iff.mp (List.isEmpty_iff.mp hE)
    exact this
  · rw [markAsDelivered, if_neg hE]
    rw [getUndeliveredMessages]
    have hfil :
        (DB.rows ⟨db.rows.map
            (deliverRow ((getUndeliveredMessages db u).map Msg.id) now),
          db.nextId⟩).filter (undeliveredFor u) = [] := by
      apply List.filter_eq_nil_iff.mpr
      intro a ha
      obtain ⟨m, hm, rfl⟩ := List.mem_map.mp ha
      simp [undeliveredFor_after_markAll db u now m hm]
    rw [hfil]
    rfl

/-- `getOfflineMessages` leaves no undelivered messages for the user. -/
theorem getOffline_drains (db : DB) (u now : Nat) :
    getUndeliveredMessages (getOfflineMessages db u now).2 u = [] := by
  rw [getOfflineMessages]
  by_cases hE : (getUndeliveredMessages db u).isEmpty
  · simpa [hE] using List.isEmpty_iff.mp hE
  · simpa [hE] using markAll_drains db u now

/-! Concrete states used as witnesses and counterexamples. -/

/-- An empty `messages` table. -/
def dbEmpty : DB := ⟨[], 1⟩

/-- A table with one undelivered chat message from user 1 to user 2. -/
def dbEx : DB := ⟨[⟨1, 1, 2, Content.chat "hello", 0, false, none, false, none⟩], 2⟩

/-- A server with user 1 connected on transport 10 and an empty mailbox. -/
def srv1 : Srv := ⟨[⟨1, 10⟩], dbEmpty, []⟩

/-- Three chat messages stored for recipient 2 in order m1, m2, m3. -/
def db3 : DB :=
  (storeMessage
    (storeMessage
      (storeMessage dbEmpty 1 2 (Content.chat "m1") 1).2
      1 2 (Content.chat "m2") 2).2
    1 2 (Content.chat "m3") 3).2

/-! C2: `markAsDelivered` and repeated calls. -/

/-- Erase the `delivered_at` stamp of a row (used to compare states up to
the delivery timestamp). -/
def eraseStamp (m : Msg) : Msg :=
  ⟨m.id, m.sender_id, m.recipient_id, m.encrypted_content, m.created_at,
    m.is_delivered, none, m.is_read, m.read_at⟩

theorem eraseStamp_deliverRow_twice (ids : List Nat) (n₁ n₂ : Nat) (m : Msg) :
    eraseStamp (deliverRow ids n₂ (deliverRow ids n₁ m))
      = eraseStamp (deliverRow ids n₁ m) := by
  by_cases h : m.id ∈ ids <;> simp [deliverRow, eraseStamp, h]

theorem delivered_at_deliverRow (ids : List Nat) (n : Nat) (m : Msg) :
    (deliverRow ids n m).delivered_at
      = if m.id ∈ ids then some n else m.delivered_at := by
  by_cases h : m.id ∈ ids <;> simp [deliverRow, h]

/-- Filtering by a predicate that a map does not disturb keeps the
matched-row count. -/
theorem length_filter_map_of_pred (f : Msg → Msg) (p : Msg → Bool)
    (h : ∀ m, p (f m) = p m) (l : List Msg) :
    ((l.map f).filter p).length = (l.filter p).length := by
  induction l with
  | nil => rfl
  | cons m ms ih =>
    simp only [List.map_cons, List.filter_cons, h m]
    cases hp : p m <;> simp [ih]

/-- The rows produced by a non-trivial `markAsDelivered`. -/
theorem markAsDelivered_rows (db : DB) (ids : List Nat) (n : Nat)
    (h : ¬ ids.isEmpty) :
    ((markAsDelivered db ids n).1).rows = db.rows.map (deliverRow ids n) := by
  rw [markAsDelivered, if_neg h]

/-- The count returned by a non-trivial `markAsDelivered`. -/
theorem markAsDelivered_count (db : DB) (ids : List Nat) (n : Nat)
    (h : ¬ ids.isEmpty) :
    (markAsDelivered db ids n).2
      = (db.rows.filter (fun m => m.id ∈ ids)).length := by
  rw [markAsDelivered, if_neg h]

/-- C2 (corrected): `markAsDelivered` on an empty id set is a no-op
returning 0; a second call with the same id set raises no error, leaves
every field other than `delivered_at` exactly as after the first call and
returns the same matched count, but it re-stamps `delivered_at` of every
targeted row with the second call's `CURRENT_TIMESTAMP` instead of
keeping the first timestamp. -/
theorem markAsDelivered_second_call (db : DB) (ids : List Nat) (n₁ n₂ : Nat) :
    markAsDelivered db [] n₁ = (db, 0) ∧
    ((markAsDelivered (markAsDelivered db ids n₁).1 ids n₂).1.rows.map eraseStamp
      = (markAsDelivered db ids n₁).1.rows.map eraseStamp) ∧
    ((markAsDelivered (markAsDelivered db ids n₁).1 ids n₂).1.rows.map Msg.delivered_at
      = (markAsDelivered db ids n₁).1.rows.map
          (fun m => if m.id ∈ ids then some n₂ else m.delivered_at)) ∧
    (markAsDelivered (markAsDelivered db ids n₁).1 ids n₂).2
      = (markAsDelivered db ids n₁).2 := by
  by_cases h : ids.isEmpty
  · obtain rfl : ids = [] := List.isEmpty_iff.mp h
    exact ⟨by simp [markAsDelivered], by simp [markAsDelivered],
      by simp [markAsDelivered], by simp [markAsDelivered]⟩
  · refine ⟨by simp [markAsDelivered], ?_, ?_, ?_⟩
    · rw [markAsDelivered_rows _ _ _ h, markAsDelivered_rows _ _ _ h,
        List.map_map, List.map_map, List.map_map]
      congr 1
      funext m
      simp only [Function.comp_apply]
      exact eraseStamp_deliverRow_twice ids n₁ n₂ m
    · rw [markAsDelivered_rows _ _ _ h, List.map_map]
      congr 1
      funext m
      simp only [Function.comp_apply]
      exact delivered_at_deliverRow ids n₂ m
    · rw [markAsDelivered_count _ _ _ h, markAsDelivered_count _ _ _ h,
        markAsDelivered_rows _ _ _ h]
      exact length_filter_map_of_pred _ _
        (fun m => by simp [deliverRow_id]) db.rows

/-- C2 counterexample: on a one-row table, marking id 1 delivered at time
5 and then again at time 9 changes the row's `delivered_at` from
`some 5` to `some 9`, so the second call does not leave the state
identical to the state after the first call. -/
theorem markAsDelivered_restamps_delivered_at :
    (markAsDelivered dbEx [1] 5).1.rows.map Msg.delivered_at = [some 5] ∧
    (markAsDelivered ((markAsDelivered dbEx [1] 5).1) [1] 9).1.rows.map
        Msg.delivered_at = [some 9] := by
  exact ⟨rfl, rfl⟩

/-- C7 (confirmed): when the table's rows are in `created_at` order (as
produced by inserts with a monotone clock), `getUndeliveredMessages`
returns exactly the rows with that recipient and `is_delivered = false`,
in storage (FIFO) order. -/
theorem getUndeliveredMessages_fifo (db : DB) (r : Nat)
    (h : db.rows.Pairwise (fun a b => a.created_at ≤ b.created_at)) :
    getUndeliveredMessages db r = db.rows.filter (undeliveredFor r) := by
  rw [getUndeliveredMessages]
  exact sortByCreated_eq_self _ (List.Pairwise.sublist (List.filter_sublist db.rows) h)

/-- C7 witness: three messages stored for recipient 2 in order m1, m2, m3
are fetched in exactly that order. -/
theorem getUndeliveredMessages_fifo_witness :
    getUndeliveredMessages db3 2
      = [⟨1, 1, 2, Content.chat "m1", 1, false, none, false, none⟩,
         ⟨2, 1, 2, Content.chat "m2", 2, false, none, false, none⟩,
         ⟨3, 1, 2, Content.chat "m3", 3, false, none, false, none⟩] := by
  rw [getUndeliveredMessages_fifo db3 2 (by decide)]
  rfl

/-- C8 (confirmed): `markAsRead` mutates only rows whose `recipient_id`
equals the calling user; a row at any position belonging to a different
recipient is returned unchanged, with no error. -/
theorem markAsRead_scoped_frame (db : DB) (ids : List Nat) (u now i : Nat)
    (m : Msg) (hm : db.rows[i]? = some m) (hr : m.recipient_id ≠ u) :
    ((markAsRead db ids u now).1).rows[i]? = some m := by
  by_cases h : ids.isEmpty
  · simp [markAsRead, h, hm]
  · simp only [markAsRead, h, if_false, Bool.false_eq_true]
    rw [List.getElem?_map, hm]
    simp [readRow, hr]

/-- C8 witness: marking id 1 as read on behalf of user 5 leaves the row
addressed to user 2 untouched. -/
theorem markAsRead_scoped_frame_witness :
    ((markAsRead dbEx [1] 5 9).1).rows[0]?
      = some ⟨1, 1, 2, Content.chat "hello", 0, false, none, false, none⟩ :=
  markAsRead_scoped_frame dbEx [1] 5 9 0
    ⟨1, 1, 2, Content.chat "hello", 0, false, none, false, none⟩
    (by rfl) (by decide)

/-- C1 (corrected): when the recipient has no live connection and the
signal type is `ice-candidate`, `sendSignal` stores nothing in the
mailbox but still answers with the same 202 accepted/queued outcome as
persistable subtypes — it does not report an error to the sender. -/
theorem sendSignal_ice_offline_is_accepted (clients : List Client) (db : DB)
    (senderId : Nat) (sd : SignalMessage) (now : Nat)
    (h0 : sd.recipient ≠ 0) (ht : sd.stype = "ice-candidate")
    (hd : sd.data ≠ "")
    (hoff : clients.find? (fun c => c.userId == sd.recipient) = none) :
    sendSignal clients db senderId sd now
      = (db, ⟨202, "Recipient offline, signal queued for delivery"⟩, []) := by
  simp [sendSignal, h0, ht, hd, hoff]

/-- C1 witness. -/
theorem sendSignal_ice_offline_is_accepted_witness :
    sendSignal [] dbEmpty 1 ⟨2, "ice-candidate", "cand"⟩ 0
      = (dbEmpty, ⟨202, "Recipient offline, signal queued for delivery"⟩, []) :=
  sendSignal_ice_offline_is_accepted [] dbEmpty 1 ⟨2, "ice-candidate", "cand"⟩ 0
    (by decide) rfl (by decide) rfl

/-- C1 counterexample: for an offline recipient and an `ice-candidate`
signal, the response is HTTP 202 with the queued-for-delivery message —
an accepted/queued outcome, not an error — while the table is indeed
left unchanged. -/
theorem sendSignal_ice_offline_not_error :
    (sendSignal [] dbEmpty 1 ⟨2, "ice-candidate", "cand"⟩ 0).2.1.status = 202 ∧
    (sendSignal [] dbEmpty 1 ⟨2, "ice-candidate", "cand"⟩ 0).2.1.msg
        = "Recipient offline, signal queued for delivery" ∧
    (sendSignal [] dbEmpty 1 ⟨2, "ice-candidate", "cand"⟩ 0).1 = dbEmpty :=
  ⟨rfl, rfl, rfl⟩

/-- C3 (corrected): on disconnect of a registered transport the handler
writes the presence key to offline FIRST, then removes the registry
entry, then broadcasts presence-offline to the remaining clients — the
opposite of the unregister-then-presence-update order the claim
states. -/
theorem handleDisconnect_presence_before_unregister (srv : Srv) (ws : Nat)
    (c : Client) (h : srv.clients.find? (fun x => x.ws == ws) = some c) :
    handleDisconnect srv ws
      = (⟨unregisterClient srv.clients ws, srv.db,
           setPresence srv.presence c.userId "offline"⟩,
         [Event.presenceSet c.userId "offline", Event.unregisterEv ws]
           ++ broadcastEvents (unregisterClient srv.clients ws)
               c.userId "offline") := by
  simp [handleDisconnect, h]

/-- C3 witness. -/
theorem handleDisconnect_presence_before_unregister_witness :
    handleDisconnect srv1 10
      = (⟨[], dbEmpty, [(1, "offline")]⟩,
         [Event.presenceSet 1 "offline", Event.unregisterEv 10]) :=
  handleDisconnect_presence_before_unregister srv1 10 ⟨1, 10⟩ rfl

/-- C3 counterexample: with user 1 connected on transport 10, the
disconnect trace is presence-offline first and registry removal second,
so the registry removal does NOT precede the presence write. -/
theorem handleDisconnect_unregister_not_first :
    (handleDisconnect srv1 10).2
        = [Event.presenceSet 1 "offline", Event.unregisterEv 10] ∧
    ¬ ((handleDisconnect srv1 10).2.indexOf (Event.unregisterEv 10)
        < (handleDisconnect srv1 10).2.indexOf
            (Event.presenceSet 1 "offline")) :=
  ⟨rfl, by decide⟩

/-- C4 (corrected): the WebSocket signal handler never persists a signal
whose recipient is absent from the registry — for every subtype
(including offer/answer) it leaves the whole state untouched and sends a
`Recipient is offline` error frame back to the sender. Persistence of
non-ICE subtypes happens only on the HTTP `sendSignal` path. -/
theorem handleSignal_offline_never_persists (srv : Srv) (ws : Nat)
    (payload : SigPayload) (sender : Client)
    (hs : srv.clients.find? (fun c => c.ws == ws) = some sender)
    (hr : srv.clients.find? (fun c => c.userId == payload.recipient) = none) :
    handleSignal srv ws payload
      = (srv, [Event.send ws (Frame.errorF "Recipient is offline")]) := by
  simp [handleSignal, hs, hr]

/-- C4 witness. -/
theorem handleSignal_offline_never_persists_witness :
    handleSignal srv1 10 ⟨2, "offer", "o"⟩
      = (srv1, [Event.send 10 (Frame.errorF "Recipient is offline")]) :=
  handleSignal_offline_never_persists srv1 10 ⟨2, "offer", "o"⟩ ⟨1, 10⟩ rfl rfl

/-- C4 counterexample: an authenticated sender (user 1 on transport 10)
sends an `offer` signal to the absent user 2: the mailbox stays empty
(nothing is persisted) and the sender gets a `Recipient is offline`
error frame. -/
theorem handleSignal_offer_offline_not_stored :
    (handleSignal srv1 10 ⟨2, "offer", "o"⟩).1.db.rows = [] ∧
    (handleSignal srv1 10 ⟨2, "offer", "o"⟩).2
      = [Event.send 10 (Frame.errorF "Recipient is offline")] :=
  ⟨rfl, rfl⟩

/-- Registering keeps the peer ids of the registry pairwise distinct. -/
theorem nodup_registerClient (cl : List Client) (u w : Nat)
    (h : (cl.map Client.userId).Nodup) :
    ((registerClient cl u w).map Client.userId).Nodup := by
  rw [registerClient, List.map_append, List.nodup_append]
  refine ⟨?_, by simp, ?_⟩
  · exact List.Nodup.sublist
      ((List.filter_sublist cl).map Client.userId) h
  · intro a ha hb
    obtain ⟨c, hc, rfl⟩ := List.mem_map.mp ha
    have hne := (List.mem_filter.mp hc).2
    simp only [List.map_cons, List.map_nil, List.mem_singleton] at hb
    simp [hb] at hne

/-- C5 (confirmed): every registry state reachable through
register/unregister has pairwise-distinct peer ids, and registering the
same peer id twice in succession leaves exactly one entry for it — the
second one. -/
theorem registry_at_most_one_per_peer :
    (∀ cl, Reachable cl → (cl.map Client.userId).Nodup) ∧
    (∀ (cl : List Client) (u w₁ w₂ : Nat),
      (registerClient (registerClient cl u w₁) u w₂).filter
          (fun c => c.userId == u) = [⟨u, w₂⟩]) := by
  constructor
  · intro cl h
    induction h with
    | nil => simp
    | reg cl u w _ ih => exact nodup_registerClient cl u w ih
    | unreg cl w _ ih =>
      exact List.Nodup.sublist
        ((List.filter_sublist cl).map Client.userId) ih
  · intro cl u w₁ w₂
    have h1 : ∀ l : List Client,
        (l.filter (fun c => c.userId != u)).filter
            (fun c => c.userId == u) = [] := by
      intro l
      apply List.filter_eq_nil_iff.mpr
      intro c hc
      have := (List.mem_filter.mp hc).2
      simp_all
    simp [registerClient, List.filter_append, h1]

/-- C5 witness. -/
theorem registry_at_most_one_per_peer_witness :
    (([⟨7, 1⟩] : List Client).map Client.userId).Nodup ∧
    (registerClient (registerClient [] 7 1) 7 2).filter
        (fun c => c.userId == 7) = [⟨7, 2⟩] :=
  ⟨registry_at_most_one_per_peer.1 [⟨7, 1⟩]
      (Reachable.reg [] 7 1 Reachable.nil),
   registry_at_most_one_per_peer.2 [] 7 1 2⟩

/-- C6 (confirmed): on a successful connect the handler registers the
transport, sets presence online with a 60-second expiry, broadcasts
presence-online to all registered clients, fetches the user's
undelivered messages, pushes them as one bundled frame and marks exactly
the fetched ids delivered — in that order — and afterwards an
undelivered fetch for that user returns nothing. -/
theorem handleConnect_spec (srv : Srv) (ws u now : Nat) :
    (handleConnect srv ws (some u) now).1.clients
        = registerClient srv.clients u ws ∧
    (handleConnect srv ws (some u) now).1.presence
        = setPresence srv.presence u "online" ∧
    (handleConnect srv ws (some u) now).2
      = [Event.registerEv u ws, Event.presenceSet u "online",
         Event.presenceExpire u 60, Event.send ws (Frame.connectOk u)]
        ++ broadcastEvents (registerClient srv.clients u ws) u "online"
        ++ [Event.fetchEv u]
        ++ (if (getUndeliveredMessages srv.db u).isEmpty then []
            else
              [Event.send ws
                (Frame.pendingF (pendingPayload (getUndeliveredMessages srv.db u))),
               Event.markDeliveredEv
                ((getUndeliveredMessages srv.db u).map Msg.id)]) ∧
    getUndeliveredMessages (handleConnect srv ws (some u) now).1.db u = [] := by
  refine ⟨rfl, rfl, rfl, ?_⟩
  show getUndeliveredMessages
      (if (getUndeliveredMessages srv.db u).isEmpty then srv.db
       else (markAsDelivered srv.db
              ((getUndeliveredMessages srv.db u).map Msg.id) now).1) u = []
  by_cases hE : (getUndeliveredMessages srv.db u).isEmpty
  · rw [if_pos hE]
    exact List.isEmpty_iff.mp hE
  · rw [if_neg hE]
    exact markAll_drains srv.db u now

/-- C9 (confirmed): `getOfflineMessages` fetches every undelivered row of
the user (signal-shaped rows included) and marks them all delivered, so
a `getPendingSignals` call made right after — with no intervening
store — finds no undelivered rows and returns an empty signal list: the
two drain endpoints share one undelivered pool. -/
theorem offline_drain_empties_pending_signals (db : DB) (u n₁ n₂ : Nat) :
    (getOfflineMessages db u n₁).1 = getUndeliveredMessages db u ∧
    getUndeliveredMessages (getOfflineMessages db u n₁).2 u = [] ∧
    (getPendingSignals ((getOfflineMessages db u n₁).2) u n₂).1 = [] := by
  refine ⟨rfl, getOffline_drains db u n₁, ?_⟩
  show (getUndeliveredMessages (getOfflineMessages db u n₁).2 u).filterMap
      parseSignal = []
  rw [getOffline_drains db u n₁]
  rfl

/-- C10 (confirmed): a signal or message frame arriving on a transport
with no registry entry yields exactly one `Not authenticated` error
frame on that transport and leaves the whole server state — registry,
mailbox and presence — unchanged. -/
theorem unauthenticated_frame_noop (srv : Srv) (ws : Nat)
    (sp : SigPayload) (cp : ChatPayload) (now : Nat)
    (h : ∀ c ∈ srv.clients, c.ws ≠ ws) :
    handleSignal srv ws sp
        = (srv, [Event.send ws (Frame.errorF "Not authenticated")]) ∧
    handleMessage srv ws cp now
        = (srv, [Event.send ws (Frame.errorF "Not authenticated")]) := by
  have hf : srv.clients.find? (fun c => c.ws == ws) = none := by
    apply List.find?_eq_none.mpr
    intro c hc
    simpa using h c hc
  exact ⟨by simp [handleSignal, hf], by simp [handleMessage, hf]⟩

/-- C10 witness. -/
theorem unauthenticated_frame_noop_witness :
    handleSignal srv1 99 ⟨2, "offer", "o"⟩
        = (srv1, [Event.send 99 (Frame.errorF "Not authenticated")]) ∧
    handleMessage srv1 99 ⟨2, Content.chat "x", 0⟩ 0
        = (srv1, [Event.send 99 (Frame.errorF "Not authenticated")]) :=
  unauthenticated_frame_noop srv1 99 ⟨2, "offer", "o"⟩
    ⟨2, Content.chat "x", 0⟩ 0
    (by intro c hc; simp only [srv1, List.mem_singleton] at hc; subst hc; decide)
